import Mathlib

/-!
Verification of the sensor-acquisition subsystem of drip-node.

The Rust sources under `src/enviro_phat/` are embedded shallowly:

* Bus transactions (`i2cdev` message arrays) are modelled as lists of
  `Segment`s; every `transfer` call the driver makes is recorded in an
  output trace, and the bytes a device would answer with are passed in as
  explicit parameters (the embedding models the successful-transport
  behaviour; transport-level I/O failures abort every code path uniformly
  via the `?` operator and play no role in the claims settled here).
* `f32` arithmetic in the compensation formula and light normalisation is
  modelled as exact rational arithmetic (`ℚ`).  Where a claim depends on a
  concrete rounded value (the settle-time ceiling) the agreement of the
  rational model with the `f32` evaluation was checked for every reachable
  input (the 25 oversampling pairs); `ℚ` division by zero yields 0 where
  `f32` would produce a non-finite value, which is noted at the one claim
  it touches.
* Machine integers are `ℕ`/`ℤ` with the bit operations of the source
  (`<<<`, `>>>`, `|||`); `u8`/`u16` casts are tracked by explicit `< 256`
  / `< 65536` bounds, and the `as i16` reinterpretation is `toI16`.
-/

namespace DripNode

/-- One segment of an I2C transaction: a write of concrete bytes or a read
of a given length, each addressed to a device (`LinuxI2CMessage` with
`with_address`). -/
inductive Segment where
  | write (addr : ℕ) (data : List ℕ)
  | read (addr : ℕ) (len : ℕ)
deriving DecidableEq

/-- One `transfer` call on the locked bus: an ordered list of segments
executed atomically under the bus mutex. -/
abbrev Transaction := List Segment

/-- The fault taxonomy of the spec (§7).  The Rust code raises `anyhow`
errors; the identity-mismatch error message corresponds to
`UnexpectedDevice` (carrying expected and received identity bytes). -/
inductive AcquisitionFault where
  | UnexpectedDevice (expected got : ℕ)
  | TransportFault
  | InvalidCalibration
deriving DecidableEq

/-! ### BMP280 driver (src/enviro_phat/v1/bmp280.rs) -/

/-- `StandbyTime`, `repr(u8)` discriminants 0b000 … 0b111. -/
inductive StandbyTime where
  | Time0_5ms | Time62_5ms | Time125ms | Time250ms
  | Time500ms | Time1000ms | Time2000ms | Time4000ms
deriving DecidableEq

def StandbyTime.val : StandbyTime → ℕ
  | .Time0_5ms => 0b000
  | .Time62_5ms => 0b001
  | .Time125ms => 0b010
  | .Time250ms => 0b011
  | .Time500ms => 0b100
  | .Time1000ms => 0b101
  | .Time2000ms => 0b110
  | .Time4000ms => 0b111

/-- `IIRCoeficient`, `repr(u8)` discriminants 0b001 … 0b101. -/
inductive IIRCoeficient where
  | Off | Mult2X | Mult4X | Mult8X | Mult16X
deriving DecidableEq

def IIRCoeficient.val : IIRCoeficient → ℕ
  | .Off => 0b001
  | .Mult2X => 0b010
  | .Mult4X => 0b011
  | .Mult8X => 0b100
  | .Mult16X => 0b101

/-- `Oversampling`, `repr(u8)` discriminants 0b001 … 0b101 (register
encodings, not the oversampling multipliers the variant names denote). -/
inductive Oversampling where
  | Mult1X | Mult2X | Mult4X | Mult8X | Mult16X
deriving DecidableEq

/-- The `as u8` value of an `Oversampling` variant (its `repr(u8)`
discriminant): this is what the Rust casts produce. -/
def Oversampling.val : Oversampling → ℕ
  | .Mult1X => 0b001
  | .Mult2X => 0b010
  | .Mult4X => 0b011
  | .Mult8X => 0b100
  | .Mult16X => 0b101

/-- The oversampling multiplier each variant name denotes (1×, 2×, 4×, 8×,
16×).  Not used by the code; needed to state the spec's settle-time
formula. -/
def Oversampling.multiplier : Oversampling → ℕ
  | .Mult1X => 1
  | .Mult2X => 2
  | .Mult4X => 4
  | .Mult8X => 8
  | .Mult16X => 16

/-- `Mode`, `repr(u8)` discriminants: Sleep 0b00, Forced 0b01,
Normal 0b11. -/
inductive Mode where
  | Sleep | Forced | Normal
deriving DecidableEq

def Mode.val : Mode → ℕ
  | .Sleep => 0b00
  | .Forced => 0b01
  | .Normal => 0b11

/-- The twelve factory calibration coefficients. `dig_t1`/`dig_p1` are
`u16` (ℕ with a `< 65536` bound where needed), the rest `i16` (ℤ). -/
structure CalibrationData where
  dig_t1 : ℕ
  dig_t2 : ℤ
  dig_t3 : ℤ
  dig_p1 : ℕ
  dig_p2 : ℤ
  dig_p3 : ℤ
  dig_p4 : ℤ
  dig_p5 : ℤ
  dig_p6 : ℤ
  dig_p7 : ℤ
  dig_p8 : ℤ
  dig_p9 : ℤ
deriving DecidableEq

/-- `((hi as u16) << 8) | (lo as u16)`: the little-endian u16 assembled
from two consecutive calibration bytes (low byte at the lower offset). -/
def decodeU16 (lo hi : ℕ) : ℕ := (hi <<< 8) ||| lo

/-- The `as i16` reinterpretation of a `u16` value. -/
def toI16 (n : ℕ) : ℤ := if n < 32768 then (n : ℤ) else (n : ℤ) - 65536

/-- Decoding of the 24-byte calibration block (`CalibrationData`
construction in `Bmp280::new`, bytes indexed exactly as in the source). -/
def decodeCalibration (b : List ℕ) : CalibrationData where
  dig_t1 := decodeU16 (b.getD 0 0) (b.getD 1 0)
  dig_t2 := toI16 (decodeU16 (b.getD 2 0) (b.getD 3 0))
  dig_t3 := toI16 (decodeU16 (b.getD 4 0) (b.getD 5 0))
  dig_p1 := decodeU16 (b.getD 6 0) (b.getD 7 0)
  dig_p2 := toI16 (decodeU16 (b.getD 8 0) (b.getD 9 0))
  dig_p3 := toI16 (decodeU16 (b.getD 10 0) (b.getD 11 0))
  dig_p4 := toI16 (decodeU16 (b.getD 12 0) (b.getD 13 0))
  dig_p5 := toI16 (decodeU16 (b.getD 14 0) (b.getD 15 0))
  dig_p6 := toI16 (decodeU16 (b.getD 16 0) (b.getD 17 0))
  dig_p7 := toI16 (decodeU16 (b.getD 18 0) (b.getD 19 0))
  dig_p8 := toI16 (decodeU16 (b.getD 20 0) (b.getD 21 0))
  dig_p9 := toI16 (decodeU16 (b.getD 22 0) (b.getD 23 0))

/-- Low byte of the 2-byte little-endian encoding of a `u16` value (test
fixture for the round-trip property, the inverse of `decodeU16`). -/
def u16Lo (v : ℕ) : ℕ := v % 256

/-- High byte of the 2-byte little-endian encoding of a `u16` value. -/
def u16Hi (v : ℕ) : ℕ := v / 256

/-- Low byte of the 2-byte little-endian encoding of an `i16` value. -/
def i16Lo (v : ℤ) : ℕ := u16Lo (v % 65536).toNat

/-- High byte of the 2-byte little-endian encoding of an `i16` value. -/
def i16Hi (v : ℤ) : ℕ := u16Hi (v % 65536).toNat

/-- The 24-byte block that encodes twelve coefficients per the fixed
layout (the inverse test fixture of `decodeCalibration`): little-endian,
`dig_t1` at offsets 0–1, …, `dig_p9` at offsets 22–23. -/
def encodeCalibration (c : CalibrationData) : List ℕ :=
  [u16Lo c.dig_t1, u16Hi c.dig_t1,
   i16Lo c.dig_t2, i16Hi c.dig_t2,
   i16Lo c.dig_t3, i16Hi c.dig_t3,
   u16Lo c.dig_p1, u16Hi c.dig_p1,
   i16Lo c.dig_p2, i16Hi c.dig_p2,
   i16Lo c.dig_p3, i16Hi c.dig_p3,
   i16Lo c.dig_p4, i16Hi c.dig_p4,
   i16Lo c.dig_p5, i16Hi c.dig_p5,
   i16Lo c.dig_p6, i16Hi c.dig_p6,
   i16Lo c.dig_p7, i16Hi c.dig_p7,
   i16Lo c.dig_p8, i16Hi c.dig_p8,
   i16Lo c.dig_p9, i16Hi c.dig_p9]

/-- The `Bmp280` driver state: the bus handle is left implicit (device
responses are passed to each operation); the remaining fields are exactly
the struct's. -/
structure Bmp280 where
  calib : CalibrationData
  press_oversampling : Oversampling
  temp_oversampling : Oversampling
  mode : Mode
deriving DecidableEq

def Bmp280.I2C_ADDR : ℕ := 0x77
def Bmp280.CHIP_ID_REG_ADDR : ℕ := 0xd0
def Bmp280.CHIP_ID_EXPECTED : ℕ := 0x58
def Bmp280.CALIB_REG_ADDR : ℕ := 0x88
def Bmp280.CALIB_DATA_SIZE : ℕ := 24
def Bmp280.CTRL_MEAS_REG_ADDR : ℕ := 0xf4
def Bmp280.CONFIG_REG_ADDR : ℕ := 0xf5
def Bmp280.DATA_REG_ADDR : ℕ := 0xf7
def Bmp280.DATA_REG_SIZE : ℕ := 6

/-- The packed `ctrl_meas` register byte:
`(temp_oversampling << 5) | (press_oversampling << 2) | mode`. -/
def ctrlMeasReg (tOs pOs : Oversampling) (m : Mode) : ℕ :=
  (tOs.val <<< 5) ||| (pOs.val <<< 2) ||| m.val

/-- The packed `config` register byte:
`(standby_time << 5) | (iir_coef << 2)`. -/
def configReg (st : StandbyTime) (iir : IIRCoeficient) : ℕ :=
  (st.val <<< 5) ||| (iir.val <<< 2)

/-- The settle wait computed in `query_press_and_temp`:
`(2.2 * (press_oversampling as u8) + 4.3 * (temp_oversampling as u8)
  + 2.0).ceil() as u64`.
The `f32` constants and rounding are modelled by exact `ℚ` arithmetic; the
rational and `f32` evaluations of this expression agree on all 25
oversampling pairs (checked by hand, including the round-to-even ties at
2×/2× and 4×/4×). -/
def wait_time_ms (pOs tOs : Oversampling) : ℕ :=
  (⌈(2.2 : ℚ) * (pOs.val : ℚ) + (4.3 : ℚ) * (tOs.val : ℚ) + 2.0⌉).toNat

/-- `raw_press`: bytes 0–2 of the data-register read, packed as
`(b0 << 12) | (b1 << 4) | (b2 >> 4)` (the `as i32` cast is the identity
on this 20-bit value). -/
def rawPress (d : List ℕ) : ℕ :=
  ((d.getD 0 0) <<< 12) ||| ((d.getD 1 0) <<< 4) ||| ((d.getD 2 0) >>> 4)

/-- `raw_temp`: bytes 3–5 of the data-register read, packed identically to
`rawPress`. -/
def rawTemp (d : List ℕ) : ℕ :=
  ((d.getD 3 0) <<< 12) ||| ((d.getD 4 0) <<< 4) ||| ((d.getD 5 0) >>> 4)

/-- The datasheet appendix-8.1 compensation algorithm exactly as coded
(lines 226–249 of bmp280.rs), `f32` modelled as `ℚ`.  Returns
`(pressure_Pa, temperature_C)`.  Note: when `dig_p1 = 0` the division
producing `p_var3b` is by zero — `f32` would yield a non-finite value; in
`ℚ` it yields 0.  No code path guards against it. -/
def compensate (c : CalibrationData) (raw_press raw_temp : ℕ) : ℚ × ℚ :=
  let t_var1 : ℚ :=
    ((raw_temp : ℚ) / 16384 - (c.dig_t1 : ℚ) / 1024) * (c.dig_t2 : ℚ)
  let t_var2 : ℚ :=
    ((raw_temp : ℚ) / 131072 - (c.dig_t1 : ℚ) / 8192)
      * ((raw_temp : ℚ) / 131072 - (c.dig_t1 : ℚ) / 8192) * (c.dig_t3 : ℚ)
  let t_fine := t_var1 + t_var2
  let output_temp := t_fine / 5120
  let p_var1 : ℚ := t_fine / 2 - 64000
  let p_var2 : ℚ := p_var1 * p_var1 * (c.dig_p6 : ℚ) / 32768
    + p_var1 * (c.dig_p5 : ℚ) * 2
  let p_var2b := p_var2 / 4 + (c.dig_p4 : ℚ) * 65536
  let p_var1b := ((c.dig_p3 : ℚ) * p_var1 * p_var1 / 524288
    + (c.dig_p2 : ℚ) * p_var1) / 524288
  let p_var1c := (1 + p_var1b / 32768) * (c.dig_p1 : ℚ)
  let p_var3 : ℚ := 1048576 - (raw_press : ℚ)
  let p_var3b := (p_var3 - p_var2b / 4096) * 6250 / p_var1c
  let p_var1d := (c.dig_p9 : ℚ) * p_var3b * p_var3b / 2147483648
  let p_var2c := p_var3b * (c.dig_p8 : ℚ) / 32768
  let output_press := p_var3b + (p_var1d + p_var2c + (c.dig_p7 : ℚ)) / 16
  (output_press, output_temp)

deriving instance DecidableEq for Except

/-- The `p_var1` value the pressure branch divides by (the state of
`p_var1` after line 243 of bmp280.rs), as a function of the calibration
and the raw temperature code: `(1 + p_var1/32768) * dig_p1`. -/
def pressureDivisor (c : CalibrationData) (raw_temp : ℕ) : ℚ :=
  let t_var1 : ℚ :=
    ((raw_temp : ℚ) / 16384 - (c.dig_t1 : ℚ) / 1024) * (c.dig_t2 : ℚ)
  let t_var2 : ℚ :=
    ((raw_temp : ℚ) / 131072 - (c.dig_t1 : ℚ) / 8192)
      * ((raw_temp : ℚ) / 131072 - (c.dig_t1 : ℚ) / 8192) * (c.dig_t3 : ℚ)
  let t_fine := t_var1 + t_var2
  let p_var1 : ℚ := t_fine / 2 - 64000
  let p_var1b := ((c.dig_p3 : ℚ) * p_var1 * p_var1 / 524288
    + (c.dig_p2 : ℚ) * p_var1) / 524288
  (1 + p_var1b / 32768) * (c.dig_p1 : ℚ)

/-- Everything observable about one `query_press_and_temp` call: its
return value, the bus transactions it issued (in order), and the settle
sleep it performed, if any. -/
structure QueryOutcome where
  result : Except AcquisitionFault (ℚ × ℚ)
  transactions : List Transaction
  sleptMs : Option ℕ
deriving DecidableEq

/-- `Bmp280::query_press_and_temp`, given the 6 bytes the chip answers to
the data-register read.  If the mode is not Normal the driver first writes
the `ctrl_meas` register with the Forced-mode pattern and sleeps for
`wait_time_ms`; it then reads the 6 data bytes and applies `compensate`. -/
def Bmp280.queryPressAndTemp (b : Bmp280) (rawData : List ℕ) : QueryOutcome :=
  let forcedPart : List Transaction :=
    if b.mode ≠ Mode.Normal then
      [[Segment.write Bmp280.I2C_ADDR
          [Bmp280.CTRL_MEAS_REG_ADDR,
           ctrlMeasReg b.temp_oversampling b.press_oversampling Mode.Forced]]]
    else []
  let slept : Option ℕ :=
    if b.mode ≠ Mode.Normal then
      some (wait_time_ms b.press_oversampling b.temp_oversampling)
    else none
  let dataTx : Transaction :=
    [Segment.write Bmp280.I2C_ADDR [Bmp280.DATA_REG_ADDR],
     Segment.read Bmp280.I2C_ADDR Bmp280.DATA_REG_SIZE]
  { result := Except.ok (compensate b.calib (rawPress rawData) (rawTemp rawData))
    transactions := forcedPart ++ [dataTx]
    sleptMs := slept }

/-- `Bmp280::reconfigure`: packs the two register bytes and writes both in
one transfer.  It takes `&self` and mutates nothing, so the returned
driver state is the input state unchanged; the second component is the
transaction written. -/
def Bmp280.reconfigure (b : Bmp280) (st : StandbyTime) (iir : IIRCoeficient)
    (pOs tOs : Oversampling) (m : Mode) : Bmp280 × Transaction :=
  (b,
   [Segment.write Bmp280.I2C_ADDR [Bmp280.CTRL_MEAS_REG_ADDR, ctrlMeasReg tOs pOs m],
    Segment.write Bmp280.I2C_ADDR [Bmp280.CONFIG_REG_ADDR, configReg st iir]])

/-- Everything observable about one `Bmp280::new` call. -/
structure NewOutcome where
  result : Except AcquisitionFault Bmp280
  transactions : List Transaction
deriving DecidableEq

/-- `Bmp280::new`, given the identity byte and the 24 calibration bytes
the chip answers.  Identity mismatch aborts before the calibration read;
otherwise the calibration is decoded, the struct built from the
constructor arguments, and `reconfigure` called with those same
arguments. -/
def Bmp280.new (idByte : ℕ) (calibBytes : List ℕ) (st : StandbyTime)
    (iir : IIRCoeficient) (pOs tOs : Oversampling) (m : Mode) : NewOutcome :=
  let idTx : Transaction :=
    [Segment.write Bmp280.I2C_ADDR [Bmp280.CHIP_ID_REG_ADDR],
     Segment.read Bmp280.I2C_ADDR 1]
  if idByte ≠ Bmp280.CHIP_ID_EXPECTED then
    { result := Except.error
        (AcquisitionFault.UnexpectedDevice Bmp280.CHIP_ID_EXPECTED idByte)
      transactions := [idTx] }
  else
    let calibTx : Transaction :=
      [Segment.write Bmp280.I2C_ADDR [Bmp280.CALIB_REG_ADDR],
       Segment.read Bmp280.I2C_ADDR Bmp280.CALIB_DATA_SIZE]
    let bmp : Bmp280 :=
      { calib := decodeCalibration calibBytes
        press_oversampling := pOs
        temp_oversampling := tOs
        mode := m }
    let cfg := bmp.reconfigure st iir pOs tOs m
    { result := Except.ok cfg.1
      transactions := [idTx, calibTx, cfg.2] }

/-! ### TCS3472 driver (src/enviro_phat/v1/tcs3472.rs) -/

/-- `Gain`, `repr(u8)` discriminants 0b00 … 0b11. -/
inductive Gain where
  | Mult1X | Mult4X | Mult16X | Mult60X
deriving DecidableEq

def Gain.val : Gain → ℕ
  | .Mult1X => 0b00
  | .Mult4X => 0b01
  | .Mult16X => 0b10
  | .Mult60X => 0b11

def Tcs3472.I2C_ADDR : ℕ := 0x77
def Tcs3472.CMD_REG_MASK : ℕ := 0x80
def Tcs3472.CMD_REG_AUTOINCREMENT : ℕ := 0x20
def Tcs3472.ENABLE_REG_ADDR : ℕ := 0x00
def Tcs3472.ENABLE_REG_AEN : ℕ := 0x02
def Tcs3472.ENABLE_REG_PON : ℕ := 0x01
def Tcs3472.TIMING_REG_ADDR : ℕ := 0x01
def Tcs3472.CONTROL_REG_ADDR : ℕ := 0x0f
def Tcs3472.CHIP_ID_REG_ADDR : ℕ := 0x12
def Tcs3472.CHIP_ID_EXPECTED : ℕ := 0x44
def Tcs3472.CLEAR_DATA_REG_ADDR : ℕ := 0x14
def Tcs3472.CLEAR_DATA_REG_SIZE : ℕ := 2

/-- `Tcs3472::new`, given the identity byte the chip answers.  Identity
mismatch aborts; otherwise the enable/timing registers are written with
the auto-increment command followed by the gain register, in one
transfer.  The Rust struct holds only the bus handle, so the produced
driver carries no state (`Unit`). -/
def Tcs3472.new (idByte : ℕ) : Except AcquisitionFault Unit × List Transaction :=
  let idTx : Transaction :=
    [Segment.write Tcs3472.I2C_ADDR
       [Tcs3472.CMD_REG_MASK ||| Tcs3472.CHIP_ID_REG_ADDR],
     Segment.read Tcs3472.I2C_ADDR 1]
  if idByte ≠ Tcs3472.CHIP_ID_EXPECTED then
    (Except.error (AcquisitionFault.UnexpectedDevice Tcs3472.CHIP_ID_EXPECTED idByte),
     [idTx])
  else
    let cmd_reg_enable_autoinc :=
      Tcs3472.CMD_REG_MASK ||| Tcs3472.CMD_REG_AUTOINCREMENT ||| Tcs3472.ENABLE_REG_ADDR
    let enable_reg := Tcs3472.ENABLE_REG_AEN ||| Tcs3472.ENABLE_REG_PON
    let period_count := 64
    let timing_reg := 255 - period_count
    let cmd_reg_control := Tcs3472.CMD_REG_MASK ||| Tcs3472.CONTROL_REG_ADDR
    let control_reg := Gain.Mult1X.val
    let configTx : Transaction :=
      [Segment.write Tcs3472.I2C_ADDR [cmd_reg_enable_autoinc, enable_reg, timing_reg],
       Segment.write Tcs3472.I2C_ADDR [cmd_reg_control, control_reg]]
    (Except.ok (), [idTx, configTx])

/-- The normalisation applied to the raw clear-channel code:
`(raw_val as f32) / (u16::MAX as f32)`, `f32` modelled as `ℚ`. -/
def Tcs3472.normalize (raw_val : ℕ) : ℚ := (raw_val : ℚ) / 65535

/-- `Tcs3472::query_light_level`, given the two clear-channel bytes the
chip answers (little-endian: low byte first).  Returns the normalised
light level and the transaction issued. -/
def Tcs3472.query_light_level (b0 b1 : ℕ) : ℚ × Transaction :=
  let cmd_reg_read_color_autoinc :=
    Tcs3472.CMD_REG_MASK ||| Tcs3472.CMD_REG_AUTOINCREMENT ||| Tcs3472.CLEAR_DATA_REG_ADDR
  let raw_val : ℕ := (b1 <<< 8) ||| b0
  (Tcs3472.normalize raw_val,
   [Segment.write Tcs3472.I2C_ADDR [cmd_reg_read_color_autoinc],
    Segment.read Tcs3472.I2C_ADDR Tcs3472.CLEAR_DATA_REG_SIZE])

/-! ### Measurement facade (src/enviro_phat/mod.rs, v1/mod.rs, stub/mod.rs)

The single-field wrappers `Pressure`, `Temperature`, `LightLevel` are
modelled as their underlying `f32`-as-`ℚ` values. -/

/-- One immutable measurement snapshot. -/
structure Measurement where
  pressure : ℚ
  temperature : ℚ
  light_level : ℚ
deriving DecidableEq

/-- The real facade: holds the two chip drivers (the `Tcs3472` field
carries no state and is omitted). -/
structure EnviroPHatV1 where
  bmp : Bmp280
deriving DecidableEq

/-- `EnviroPHatV1::new`: constructs the BMP280 with the fixed
configuration (standby 1000 ms, IIR 4×, pressure oversampling 16×,
temperature oversampling 2×, mode Normal), then the TCS3472; either
failure aborts. -/
def EnviroPHatV1.new (bmpIdByte : ℕ) (calibBytes : List ℕ) (tcsIdByte : ℕ) :
    Except AcquisitionFault EnviroPHatV1 :=
  match (Bmp280.new bmpIdByte calibBytes StandbyTime.Time1000ms
      IIRCoeficient.Mult4X Oversampling.Mult16X Oversampling.Mult2X
      Mode.Normal).result with
  | Except.error e => Except.error e
  | Except.ok bmp =>
    match (Tcs3472.new tcsIdByte).1 with
    | Except.error e => Except.error e
    | Except.ok _ => Except.ok { bmp := bmp }

/-- `EnviroPHatV1::measure`: samples the BMP280, then the TCS3472, and
assembles one `Measurement`; a fault in either aborts the whole call. -/
def EnviroPHatV1.measure (e : EnviroPHatV1) (bmpRawData : List ℕ)
    (tcsB0 tcsB1 : ℕ) : Except AcquisitionFault Measurement :=
  match (e.bmp.queryPressAndTemp bmpRawData).result with
  | Except.error f => Except.error f
  | Except.ok pt =>
    Except.ok
      { pressure := pt.1
        temperature := pt.2
        light_level := (Tcs3472.query_light_level tcsB0 tcsB1).1 }

/-- `EnviroPHatStub::measure`: unconditionally returns the fixed constants
`Pressure(101325.0)`, `Temperature(24.0)`, `LightLevel(2.4)`. -/
def EnviroPHatStub.measure : Except AcquisitionFault Measurement :=
  Except.ok { pressure := 101325.0, temperature := 24.0, light_level := 2.4 }

/-- All-zero calibration block, as a mis-decoded-calibration example
(`dig_p1 = 0`). -/
def zeroCalibration : CalibrationData :=
  { dig_t1 := 0, dig_t2 := 0, dig_t3 := 0, dig_p1 := 0, dig_p2 := 0
    dig_p3 := 0, dig_p4 := 0, dig_p5 := 0, dig_p6 := 0, dig_p7 := 0
    dig_p8 := 0, dig_p9 := 0 }

/-! ### Helper lemmas -/

/-- Disjoint shift-or is addition: for `y < 2^k`,
`x <<< k ||| y = 2^k * x + y`. -/
theorem shiftLeft_lor_eq_add (x : ℕ) {y k : ℕ} (h : y < 2 ^ k) :
    x <<< k ||| y = 2 ^ k * x + y := by
  rw [Nat.shiftLeft_eq, Nat.mul_comm, ← Nat.mul_add_lt_is_or h x]

/-- `decodeU16` really is the little-endian value of its two bytes. -/
theorem decodeU16_eq (lo hi : ℕ) (h : lo < 256) :
    decodeU16 lo hi = 256 * hi + lo := by
  rw [decodeU16, shiftLeft_lor_eq_add hi (by omega : lo < 2 ^ 8)]
  norm_num

/-- Encoding a value as two little-endian bytes and decoding them is the
identity. -/
theorem decode_encode_u16 (v : ℕ) : decodeU16 (u16Lo v) (u16Hi v) = v := by
  rw [decodeU16_eq _ _ (by unfold u16Lo; omega)]
  unfold u16Lo u16Hi
  omega

/-- Encoding an `i16` value as two little-endian bytes and decoding them
through the `as i16` reinterpretation is the identity on the `i16`
range. -/
theorem decode_encode_i16 (v : ℤ) (h1 : -32768 ≤ v) (h2 : v < 32768) :
    toI16 (decodeU16 (i16Lo v) (i16Hi v)) = v := by
  rw [i16Lo, i16Hi, decode_encode_u16, toI16]
  split
  · omega
  · omega

/-- `toI16` of a `u16` value lands in the `i16` range. -/
theorem toI16_range (n : ℕ) (h : n < 65536) :
    -32768 ≤ toI16 n ∧ toI16 n < 32768 := by
  rw [toI16]
  split
  · omega
  · omega

/-- The 20-bit packing `(a << 12) | (b << 4) | (c >> 4)` equals the 24-bit
big-endian integer of the three bytes shifted right by 4. -/
theorem raw20_eq (a b c : ℕ) (hb : b < 256) (hc : c < 256) :
    (a <<< 12) ||| (b <<< 4) ||| (c >>> 4) = (a * 65536 + b * 256 + c) / 16 := by
  have h1 : b <<< 4 = b * 16 := Nat.shiftLeft_eq b 4
  have h2 : c >>> 4 = c / 16 := Nat.shiftRight_eq_div_pow c 4
  rw [h1, h2, shiftLeft_lor_eq_add a (show b * 16 < 2 ^ 12 by omega)]
  have h3 : 2 ^ 12 * a + b * 16 = 2 ^ 4 * (256 * a + b) := by ring
  rw [h3, ← Nat.mul_add_lt_is_or (show c / 16 < 2 ^ 4 by omega) (256 * a + b)]
  omega

/-- The settle wait the code computes for pressure oversampling 16× and
temperature oversampling 2×: the register codes are 5 and 2, so the wait
is `ceil(2.2·5 + 4.3·2 + 2.0) = ceil(21.6) = 22` ms. -/
theorem wait_time_ms_16x_2x : wait_time_ms .Mult16X .Mult2X = 22 := by
  have h : (⌈(108 : ℚ) / 5⌉ : ℤ) = 22 := by
    rw [Int.ceil_eq_iff]
    norm_num
  simp only [wait_time_ms, Oversampling.val]
  norm_num [h]
  decide

/-- The spec's settle formula applied with the oversampling multipliers 16
and 2: `ceil(2.2·16 + 4.3·2 + 2.0) = ceil(45.8) = 46` (not the 45 the spec
states, and not the 22 the code waits). -/
theorem multiplier_formula_16x_2x :
    (⌈(2.2 : ℚ) * 16 + (4.3 : ℚ) * 2 + 2.0⌉).toNat = 46 := by
  have h : (⌈(229 : ℚ) / 5⌉ : ℤ) = 46 := by
    rw [Int.ceil_eq_iff]
    norm_num
  norm_num [h]
  decide

/-! ### Claim theorems -/

/-- C1 counterexample (settle wait): at pressure oversampling 16× and
temperature oversampling 2× in Forced mode, the code blocks for 22 ms,
while the claimed formula over the multipliers 16 and 2 evaluates to
ceil(45.8) = 46 ms and the claimed particular value is 45 ms — the claim
fails both ways at this input. -/
theorem settle_wait_counterexample :
    (Bmp280.queryPressAndTemp ⟨zeroCalibration, .Mult16X, .Mult2X, .Forced⟩
      [0, 0, 0, 0, 0, 0]).sleptMs = some 22 ∧
    Oversampling.Mult16X.multiplier = 16 ∧
    Oversampling.Mult2X.multiplier = 2 ∧
    (⌈(2.2 : ℚ) * 16 + (4.3 : ℚ) * 2 + 2.0⌉).toNat = 46 ∧
    (22 : ℕ) ≠ 45 ∧ (22 : ℕ) ≠ 46 := by
  refine ⟨?_, rfl, rfl, multiplier_formula_16x_2x, by decide, by decide⟩
  simp [Bmp280.queryPressAndTemp, wait_time_ms_16x_2x]

/-- C1 (corrected): when the driver samples in a non-Normal mode, the
settle wait it blocks for is `ceil(2.2·p + 4.3·t + 2.0)` ms where `p` and
`t` are the `repr(u8)` register codes of the oversampling settings
(1,2,3,4,5 for 1×,2×,4×,8×,16×), not the oversampling multipliers; in
particular pressure 16× and temperature 2× (codes 5 and 2) yield 22 ms. -/
theorem settle_wait_register_code_formula (b : Bmp280) (raw : List ℕ)
    (hm : b.mode ≠ Mode.Normal) :
    (b.queryPressAndTemp raw).sleptMs =
      some ((⌈(2.2 : ℚ) * (b.press_oversampling.val : ℚ) +
        (4.3 : ℚ) * (b.temp_oversampling.val : ℚ) + 2.0⌉).toNat) ∧
    wait_time_ms Oversampling.Mult16X Oversampling.Mult2X = 22 := by
  refine ⟨?_, wait_time_ms_16x_2x⟩
  simp [Bmp280.queryPressAndTemp, hm, wait_time_ms]

/-- C1 witness: the register-code settle formula at the facade's own
configuration (16×/2×) in Forced mode. -/
theorem settle_wait_register_code_formula_witness :
    (Bmp280.queryPressAndTemp ⟨zeroCalibration, .Mult16X, .Mult2X, .Forced⟩
      [0, 0, 0, 0, 0, 0]).sleptMs =
      some ((⌈(2.2 : ℚ) * ((Oversampling.Mult16X.val : ℕ) : ℚ) +
        (4.3 : ℚ) * ((Oversampling.Mult2X.val : ℕ) : ℚ) + 2.0⌉).toNat) ∧
    wait_time_ms Oversampling.Mult16X Oversampling.Mult2X = 22 :=
  settle_wait_register_code_formula
    ⟨zeroCalibration, .Mult16X, .Mult2X, .Forced⟩ [0, 0, 0, 0, 0, 0] (by decide)

/-- C2 counterexample (dig_p1 = 0 guard): with an all-zero calibration
block (`dig_p1 = 0`) the sampling operation does not fail with
`InvalidCalibration`; it returns `Ok` (the ℚ model of the division by zero
yields 0 where `f32` would yield a non-finite value). -/
theorem dig_p1_zero_counterexample :
    zeroCalibration.dig_p1 = 0 ∧
    (Bmp280.queryPressAndTemp ⟨zeroCalibration, .Mult16X, .Mult2X, .Normal⟩
      [0, 0, 0, 0, 0, 0]).result = Except.ok (0, 0) ∧
    (Bmp280.queryPressAndTemp ⟨zeroCalibration, .Mult16X, .Mult2X, .Normal⟩
      [0, 0, 0, 0, 0, 0]).result ≠
      Except.error AcquisitionFault.InvalidCalibration := by
  refine ⟨rfl, ?_, ?_⟩
  · simp only [Bmp280.queryPressAndTemp, compensate, zeroCalibration]
    norm_num [rawPress, rawTemp]
  · simp [Bmp280.queryPressAndTemp]

/-- C2 (corrected): the code has no guard on `dig_p1` at all — for every
driver whose `dig_p1` is zero, the divisor of the pressure branch is
exactly zero and sampling still succeeds, returning the compensation
formula's output (non-finite in the Rust `f32` arithmetic; 0 in this ℚ
model) instead of failing with `InvalidCalibration`. -/
theorem dig_p1_zero_no_guard (c : CalibrationData) (pOs tOs : Oversampling)
    (md : Mode) (raw : List ℕ) (hp : c.dig_p1 = 0) :
    pressureDivisor c (rawTemp raw) = 0 ∧
    (Bmp280.queryPressAndTemp ⟨c, pOs, tOs, md⟩ raw).result =
      Except.ok (compensate c (rawPress raw) (rawTemp raw)) ∧
    ((Bmp280.queryPressAndTemp ⟨c, pOs, tOs, md⟩ raw).result).isOk = true := by
  refine ⟨?_, ?_, ?_⟩
  · simp [pressureDivisor, hp]
  · simp [Bmp280.queryPressAndTemp]
  · simp [Bmp280.queryPressAndTemp, Except.isOk, Except.toBool]

/-- C2 witness: the no-guard behaviour at the all-zero calibration. -/
theorem dig_p1_zero_no_guard_witness :
    pressureDivisor zeroCalibration (rawTemp [0, 0, 0, 0, 0, 0]) = 0 ∧
    (Bmp280.queryPressAndTemp ⟨zeroCalibration, .Mult16X, .Mult2X, .Normal⟩
      [0, 0, 0, 0, 0, 0]).result =
      Except.ok (compensate zeroCalibration (rawPress [0, 0, 0, 0, 0, 0])
        (rawTemp [0, 0, 0, 0, 0, 0])) ∧
    ((Bmp280.queryPressAndTemp ⟨zeroCalibration, .Mult16X, .Mult2X, .Normal⟩
      [0, 0, 0, 0, 0, 0]).result).isOk = true :=
  dig_p1_zero_no_guard zeroCalibration .Mult16X .Mult2X .Normal
    [0, 0, 0, 0, 0, 0] rfl

/-- C3 counterexample (light level range): the stub backend's `measure`
succeeds with `light_level = 2.4`, which is not in `[0, 1]`. -/
theorem stub_light_level_counterexample :
    EnviroPHatStub.measure =
      Except.ok { pressure := 101325, temperature := 24, light_level := 12 / 5 } ∧
    ¬ ((12 : ℚ) / 5 ≤ 1) := by
  constructor
  · simp only [EnviroPHatStub.measure, Except.ok.injEq, Measurement.mk.injEq]
    norm_num
  · norm_num

/-- C3 (corrected): the real dual-chip backend's `measure` always returns
a `light_level` in `[0, 1]` (the raw 16-bit code divided by 65535), but
the fixed-value stand-in does not satisfy the claim: it returns the
constant 2.4, outside `[0, 1]`. -/
theorem v1_light_level_in_unit_interval (e : EnviroPHatV1) (bmpRaw : List ℕ)
    (b0 b1 : ℕ) (h0 : b0 < 256) (h1 : b1 < 256) (m : Measurement)
    (h : e.measure bmpRaw b0 b1 = Except.ok m) :
    0 ≤ m.light_level ∧ m.light_level ≤ 1 := by
  unfold EnviroPHatV1.measure at h
  simp [Bmp280.queryPressAndTemp] at h
  have hl : m.light_level = Tcs3472.normalize ((b1 <<< 8) ||| b0) := by
    rw [← h]
    simp [Tcs3472.query_light_level]
  have e2 : (b1 <<< 8) ||| b0 = 256 * b1 + b0 := by
    have := shiftLeft_lor_eq_add b1 (show b0 < 2 ^ 8 by omega)
    omega
  rw [hl, e2]
  unfold Tcs3472.normalize
  constructor
  · positivity
  · rw [div_le_one (by norm_num)]
    have hle : (256 * b1 + b0 : ℕ) ≤ 65535 := by omega
    exact_mod_cast hle

/-- C3 witness: the real backend's bound at a concrete measurement. -/
theorem v1_light_level_in_unit_interval_witness :
    0 ≤ (⟨0, 0, 0⟩ : Measurement).light_level ∧
    (⟨0, 0, 0⟩ : Measurement).light_level ≤ 1 :=
  v1_light_level_in_unit_interval ⟨⟨zeroCalibration, .Mult1X, .Mult1X, .Normal⟩⟩
    [] 0 0 (by decide) (by decide) ⟨0, 0, 0⟩ (by
      simp only [EnviroPHatV1.measure, Bmp280.queryPressAndTemp, compensate,
        zeroCalibration, Tcs3472.query_light_level, Tcs3472.normalize]
      norm_num [rawPress, rawTemp])

/-- C4 counterexample (reconfigure updates state): a driver whose stored
configuration is 1×/1×/Normal, reconfigured with 16×/2×/Forced, still
holds 1×/1×/Normal — the state does not equal the arguments just
applied. -/
theorem reconfigure_counterexample :
    ((Bmp280.reconfigure ⟨zeroCalibration, .Mult1X, .Mult1X, .Normal⟩
      .Time0_5ms .Off .Mult16X .Mult2X .Forced).1).press_oversampling =
      Oversampling.Mult1X ∧
    Oversampling.Mult1X ≠ Oversampling.Mult16X ∧
    ((Bmp280.reconfigure ⟨zeroCalibration, .Mult1X, .Mult1X, .Normal⟩
      .Time0_5ms .Off .Mult16X .Mult2X .Forced).1).temp_oversampling =
      Oversampling.Mult1X ∧
    Oversampling.Mult1X ≠ Oversampling.Mult2X ∧
    ((Bmp280.reconfigure ⟨zeroCalibration, .Mult1X, .Mult1X, .Normal⟩
      .Time0_5ms .Off .Mult16X .Mult2X .Forced).1).mode = Mode.Normal ∧
    Mode.Normal ≠ Mode.Forced := by
  refine ⟨rfl, by decide, rfl, by decide, rfl, by decide⟩

/-- C4 (corrected): `reconfigure` packs the two register bytes and writes
both in one transport call but leaves the driver's stored configuration
unchanged; the stored configuration is the one set at construction (where
`new` builds the struct from the same arguments it then passes to
`reconfigure`), so it equals `reconfigure`'s arguments only when those
coincide with the construction-time values. -/
theorem reconfigure_leaves_state (b : Bmp280) (st : StandbyTime)
    (iir : IIRCoeficient) (pOs tOs : Oversampling) (m : Mode) (cb : List ℕ) :
    (b.reconfigure st iir pOs tOs m).1 = b ∧
    (b.reconfigure st iir pOs tOs m).2 =
      [Segment.write Bmp280.I2C_ADDR
         [Bmp280.CTRL_MEAS_REG_ADDR, ctrlMeasReg tOs pOs m],
       Segment.write Bmp280.I2C_ADDR
         [Bmp280.CONFIG_REG_ADDR, configReg st iir]] ∧
    (Bmp280.new Bmp280.CHIP_ID_EXPECTED cb st iir pOs tOs m).result =
      Except.ok ⟨decodeCalibration cb, pOs, tOs, m⟩ := by
  refine ⟨rfl, rfl, ?_⟩
  simp [Bmp280.new, Bmp280.reconfigure]

/-- C5 (confirmed): the calibration decode is twelve little-endian 16-bit
coefficients at the fixed offsets — `dig_t1` unsigned at 0–1, `dig_t2`
signed at 2–3 (and so on through `dig_p9` signed at 22–23, each landing in
its unsigned/signed 16-bit range) — and decoding the 24-byte block that
encodes twelve in-range coefficient values reproduces those exact
values. -/
theorem calibration_decode_roundtrip (c : CalibrationData)
    (ht2 : -32768 ≤ c.dig_t2 ∧ c.dig_t2 < 32768)
    (ht3 : -32768 ≤ c.dig_t3 ∧ c.dig_t3 < 32768)
    (hp2 : -32768 ≤ c.dig_p2 ∧ c.dig_p2 < 32768)
    (hp3 : -32768 ≤ c.dig_p3 ∧ c.dig_p3 < 32768)
    (hp4 : -32768 ≤ c.dig_p4 ∧ c.dig_p4 < 32768)
    (hp5 : -32768 ≤ c.dig_p5 ∧ c.dig_p5 < 32768)
    (hp6 : -32768 ≤ c.dig_p6 ∧ c.dig_p6 < 32768)
    (hp7 : -32768 ≤ c.dig_p7 ∧ c.dig_p7 < 32768)
    (hp8 : -32768 ≤ c.dig_p8 ∧ c.dig_p8 < 32768)
    (hp9 : -32768 ≤ c.dig_p9 ∧ c.dig_p9 < 32768)
    (bs : List ℕ) (hb : ∀ i, i < 24 → bs.getD i 0 < 256) :
    decodeCalibration (encodeCalibration c) = c ∧
    (decodeCalibration bs).dig_t1 = 256 * bs.getD 1 0 + bs.getD 0 0 ∧
    (decodeCalibration bs).dig_t1 < 65536 ∧
    (decodeCalibration bs).dig_t2 = toI16 (256 * bs.getD 3 0 + bs.getD 2 0) ∧
    -32768 ≤ (decodeCalibration bs).dig_t2 ∧ (decodeCalibration bs).dig_t2 < 32768 ∧
    (decodeCalibration bs).dig_p1 = 256 * bs.getD 7 0 + bs.getD 6 0 ∧
    (decodeCalibration bs).dig_p1 < 65536 ∧
    (decodeCalibration bs).dig_p9 = toI16 (256 * bs.getD 23 0 + bs.getD 22 0) ∧
    -32768 ≤ (decodeCalibration bs).dig_p9 ∧ (decodeCalibration bs).dig_p9 < 32768 := by
  have hrt : decodeCalibration (encodeCalibration c) = c := by
    have e : decodeCalibration (encodeCalibration c) =
        ⟨decodeU16 (u16Lo c.dig_t1) (u16Hi c.dig_t1),
         toI16 (decodeU16 (i16Lo c.dig_t2) (i16Hi c.dig_t2)),
         toI16 (decodeU16 (i16Lo c.dig_t3) (i16Hi c.dig_t3)),
         decodeU16 (u16Lo c.dig_p1) (u16Hi c.dig_p1),
         toI16 (decodeU16 (i16Lo c.dig_p2) (i16Hi c.dig_p2)),
         toI16 (decodeU16 (i16Lo c.dig_p3) (i16Hi c.dig_p3)),
         toI16 (decodeU16 (i16Lo c.dig_p4) (i16Hi c.dig_p4)),
         toI16 (decodeU16 (i16Lo c.dig_p5) (i16Hi c.dig_p5)),
         toI16 (decodeU16 (i16Lo c.dig_p6) (i16Hi c.dig_p6)),
         toI16 (decodeU16 (i16Lo c.dig_p7) (i16Hi c.dig_p7)),
         toI16 (decodeU16 (i16Lo c.dig_p8) (i16Hi c.dig_p8)),
         toI16 (decodeU16 (i16Lo c.dig_p9) (i16Hi c.dig_p9))⟩ := rfl
    rw [e, decode_encode_u16, decode_encode_u16,
       decode_encode_i16 c.dig_t2 ht2.1 ht2.2,
       decode_encode_i16 c.dig_t3 ht3.1 ht3.2,
       decode_encode_i16 c.dig_p2 hp2.1 hp2.2,
       decode_encode_i16 c.dig_p3 hp3.1 hp3.2,
       decode_encode_i16 c.dig_p4 hp4.1 hp4.2,
       decode_encode_i16 c.dig_p5 hp5.1 hp5.2,
       decode_encode_i16 c.dig_p6 hp6.1 hp6.2,
       decode_encode_i16 c.dig_p7 hp7.1 hp7.2,
       decode_encode_i16 c.dig_p8 hp8.1 hp8.2,
       decode_encode_i16 c.dig_p9 hp9.1 hp9.2]
  have et1 : (decodeCalibration bs).dig_t1 = 256 * bs.getD 1 0 + bs.getD 0 0 :=
    decodeU16_eq _ _ (hb 0 (by omega))
  have et2 : (decodeCalibration bs).dig_t2 = toI16 (256 * bs.getD 3 0 + bs.getD 2 0) := by
    show toI16 (decodeU16 (bs.getD 2 0) (bs.getD 3 0)) = _
    rw [decodeU16_eq _ _ (hb 2 (by omega))]
  have ep1 : (decodeCalibration bs).dig_p1 = 256 * bs.getD 7 0 + bs.getD 6 0 :=
    decodeU16_eq _ _ (hb 6 (by omega))
  have ep9 : (decodeCalibration bs).dig_p9 = toI16 (256 * bs.getD 23 0 + bs.getD 22 0) := by
    show toI16 (decodeU16 (bs.getD 22 0) (bs.getD 23 0)) = _
    rw [decodeU16_eq _ _ (hb 22 (by omega))]
  have rt2 := toI16_range (256 * bs.getD 3 0 + bs.getD 2 0)
    (by have := hb 2 (by omega); have := hb 3 (by omega); omega)
  have rp9 := toI16_range (256 * bs.getD 23 0 + bs.getD 22 0)
    (by have := hb 22 (by omega); have := hb 23 (by omega); omega)
  refine ⟨hrt, et1, ?_, et2, ?_, ?_, ep1, ?_, ep9, ?_, ?_⟩
  · rw [et1]
    have := hb 0 (by omega)
    have := hb 1 (by omega)
    omega
  · rw [et2]; exact rt2.1
  · rw [et2]; exact rt2.2
  · rw [ep1]
    have := hb 6 (by omega)
    have := hb 7 (by omega)
    omega
  · rw [ep9]; exact rp9.1
  · rw [ep9]; exact rp9.2

/-- C5 witness: the round-trip at the datasheet sample coefficients and
the layout facts at a concrete byte block. -/
theorem calibration_decode_roundtrip_witness :
    decodeCalibration (encodeCalibration
      ⟨27504, 26435, -1000, 36477, -10685, 3024, 2855, 140, -7, 15500, -14600, 6000⟩) =
      ⟨27504, 26435, -1000, 36477, -10685, 3024, 2855, 140, -7, 15500, -14600, 6000⟩ ∧
    (decodeCalibration (List.replicate 24 7)).dig_t1 =
      256 * (List.replicate 24 7).getD 1 0 + (List.replicate 24 7).getD 0 0 ∧
    (decodeCalibration (List.replicate 24 7)).dig_t1 < 65536 ∧
    (decodeCalibration (List.replicate 24 7)).dig_t2 =
      toI16 (256 * (List.replicate 24 7).getD 3 0 + (List.replicate 24 7).getD 2 0) ∧
    -32768 ≤ (decodeCalibration (List.replicate 24 7)).dig_t2 ∧
    (decodeCalibration (List.replicate 24 7)).dig_t2 < 32768 ∧
    (decodeCalibration (List.replicate 24 7)).dig_p1 =
      256 * (List.replicate 24 7).getD 7 0 + (List.replicate 24 7).getD 6 0 ∧
    (decodeCalibration (List.replicate 24 7)).dig_p1 < 65536 ∧
    (decodeCalibration (List.replicate 24 7)).dig_p9 =
      toI16 (256 * (List.replicate 24 7).getD 23 0 + (List.replicate 24 7).getD 22 0) ∧
    -32768 ≤ (decodeCalibration (List.replicate 24 7)).dig_p9 ∧
    (decodeCalibration (List.replicate 24 7)).dig_p9 < 32768 :=
  calibration_decode_roundtrip
    ⟨27504, 26435, -1000, 36477, -10685, 3024, 2855, 140, -7, 15500, -14600, 6000⟩
    (by decide) (by decide) (by decide) (by decide) (by decide) (by decide)
    (by decide) (by decide) (by decide) (by decide)
    (List.replicate 24 7) (by decide)

/-- C6 (confirmed): light normalisation maps raw code 0 to 0 and raw code
65535 to 1, is strictly increasing in the raw code, and equals the raw
code divided by the maximum representable 16-bit value. -/
theorem light_normalization_monotone (a b r : ℕ) (hab : a < b) :
    Tcs3472.normalize 0 = 0 ∧
    Tcs3472.normalize 65535 = 1 ∧
    Tcs3472.normalize a < Tcs3472.normalize b ∧
    Tcs3472.normalize r = (r : ℚ) / (2 ^ 16 - 1) := by
  refine ⟨?_, ?_, ?_, ?_⟩
  · unfold Tcs3472.normalize
    norm_num
  · unfold Tcs3472.normalize
    norm_num
  · unfold Tcs3472.normalize
    have h : (a : ℚ) < b := by exact_mod_cast hab
    exact div_lt_div_of_pos_right h (by norm_num)
  · unfold Tcs3472.normalize
    norm_num

/-- C6 witness: the normalisation facts at raw codes 3 < 7. -/
theorem light_normalization_monotone_witness :
    Tcs3472.normalize 0 = 0 ∧
    Tcs3472.normalize 65535 = 1 ∧
    Tcs3472.normalize 3 < Tcs3472.normalize 7 ∧
    Tcs3472.normalize 9 = (9 : ℚ) / (2 ^ 16 - 1) :=
  light_normalization_monotone 3 7 9 (by decide)

/-- C7 (confirmed): for every identity byte differing from the expected
constant 0x58, `Bmp280::new` fails with `UnexpectedDevice`, the only bus
transaction issued is the identity read (the calibration read-out is never
attempted), and no driver instance is produced. -/
theorem wrong_chip_id_aborts_construction (idByte : ℕ) (cb : List ℕ)
    (st : StandbyTime) (iir : IIRCoeficient) (pOs tOs : Oversampling)
    (m : Mode) (bmp : Bmp280) (h : idByte ≠ Bmp280.CHIP_ID_EXPECTED) :
    (Bmp280.new idByte cb st iir pOs tOs m).result =
      Except.error (AcquisitionFault.UnexpectedDevice Bmp280.CHIP_ID_EXPECTED idByte) ∧
    (Bmp280.new idByte cb st iir pOs tOs m).transactions =
      [[Segment.write Bmp280.I2C_ADDR [Bmp280.CHIP_ID_REG_ADDR],
        Segment.read Bmp280.I2C_ADDR 1]] ∧
    (Bmp280.new idByte cb st iir pOs tOs m).result ≠ Except.ok bmp := by
  simp [Bmp280.new, h]

/-- C7 witness: construction aborted at identity byte 0. -/
theorem wrong_chip_id_aborts_construction_witness :
    (Bmp280.new 0 [] .Time1000ms .Mult4X .Mult16X .Mult2X .Normal).result =
      Except.error (AcquisitionFault.UnexpectedDevice Bmp280.CHIP_ID_EXPECTED 0) ∧
    (Bmp280.new 0 [] .Time1000ms .Mult4X .Mult16X .Mult2X .Normal).transactions =
      [[Segment.write Bmp280.I2C_ADDR [Bmp280.CHIP_ID_REG_ADDR],
        Segment.read Bmp280.I2C_ADDR 1]] ∧
    (Bmp280.new 0 [] .Time1000ms .Mult4X .Mult16X .Mult2X .Normal).result ≠
      Except.ok ⟨zeroCalibration, .Mult1X, .Mult1X, .Sleep⟩ :=
  wrong_chip_id_aborts_construction 0 [] .Time1000ms .Mult4X .Mult16X .Mult2X
    .Normal ⟨zeroCalibration, .Mult1X, .Mult1X, .Sleep⟩ (by decide)

/-- C8 (confirmed): for a 6-byte data-register read, the raw pressure code
is the 24-bit big-endian integer of bytes 0–2 shifted right by 4 — a
20-bit value — and the raw temperature code is formed identically from
bytes 3–5. -/
theorem raw_codes_big_endian_shifted (b0 b1 b2 b3 b4 b5 : ℕ)
    (h0 : b0 < 256) (h1 : b1 < 256) (h2 : b2 < 256)
    (h3 : b3 < 256) (h4 : b4 < 256) (h5 : b5 < 256) :
    rawPress [b0, b1, b2, b3, b4, b5] = (b0 * 2 ^ 16 + b1 * 2 ^ 8 + b2) / 2 ^ 4 ∧
    rawPress [b0, b1, b2, b3, b4, b5] < 2 ^ 20 ∧
    rawTemp [b0, b1, b2, b3, b4, b5] = (b3 * 2 ^ 16 + b4 * 2 ^ 8 + b5) / 2 ^ 4 ∧
    rawTemp [b0, b1, b2, b3, b4, b5] < 2 ^ 20 := by
  have ep : rawPress [b0, b1, b2, b3, b4, b5] =
      (b0 <<< 12) ||| (b1 <<< 4) ||| (b2 >>> 4) := rfl
  have et : rawTemp [b0, b1, b2, b3, b4, b5] =
      (b3 <<< 12) ||| (b4 <<< 4) ||| (b5 >>> 4) := rfl
  rw [ep, et, raw20_eq b0 b1 b2 h1 h2, raw20_eq b3 b4 b5 h4 h5]
  refine ⟨by norm_num, by omega, by norm_num, by omega⟩

/-- C8 witness: the packing at the bytes 0x12 0x34 0x56 0x78 0x9a 0xbc. -/
theorem raw_codes_big_endian_shifted_witness :
    rawPress [0x12, 0x34, 0x56, 0x78, 0x9a, 0xbc] =
      (0x12 * 2 ^ 16 + 0x34 * 2 ^ 8 + 0x56) / 2 ^ 4 ∧
    rawPress [0x12, 0x34, 0x56, 0x78, 0x9a, 0xbc] < 2 ^ 20 ∧
    rawTemp [0x12, 0x34, 0x56, 0x78, 0x9a, 0xbc] =
      (0x78 * 2 ^ 16 + 0x9a * 2 ^ 8 + 0xbc) / 2 ^ 4 ∧
    rawTemp [0x12, 0x34, 0x56, 0x78, 0x9a, 0xbc] < 2 ^ 20 :=
  raw_codes_big_endian_shifted 0x12 0x34 0x56 0x78 0x9a 0xbc
    (by decide) (by decide) (by decide) (by decide) (by decide) (by decide)

/-- C10 (confirmed): every driver the real facade's constructor produces
has power mode Normal; sampling on it takes the Normal-mode path — no
settle sleep and no Forced-mode control-register write, only the
data-register read — and no operation (`reconfigure` included, which
leaves the state untouched) ever changes the stored mode. -/
theorem facade_driver_always_normal_mode (bmpId tcsId : ℕ) (cb raw : List ℕ)
    (st : StandbyTime) (iir : IIRCoeficient) (pOs tOs : Oversampling)
    (m : Mode) (e : EnviroPHatV1)
    (h : EnviroPHatV1.new bmpId cb tcsId = Except.ok e) :
    e.bmp.mode = Mode.Normal ∧
    (e.bmp.queryPressAndTemp raw).sleptMs = none ∧
    (e.bmp.queryPressAndTemp raw).transactions =
      [[Segment.write Bmp280.I2C_ADDR [Bmp280.DATA_REG_ADDR],
        Segment.read Bmp280.I2C_ADDR Bmp280.DATA_REG_SIZE]] ∧
    ((e.bmp.reconfigure st iir pOs tOs m).1).mode = e.bmp.mode := by
  unfold EnviroPHatV1.new at h
  by_cases hb : bmpId = Bmp280.CHIP_ID_EXPECTED
  · by_cases ht : tcsId = Tcs3472.CHIP_ID_EXPECTED
    · simp [Bmp280.new, Tcs3472.new, hb, ht, Bmp280.reconfigure] at h
      have hbmp : e.bmp = ⟨decodeCalibration cb, .Mult16X, .Mult2X, .Normal⟩ := by
        rw [← h]
      have hmode : e.bmp.mode = Mode.Normal := by rw [hbmp]
      refine ⟨hmode, ?_, ?_, ?_⟩
      · simp [Bmp280.queryPressAndTemp, hmode]
      · simp [Bmp280.queryPressAndTemp, hmode]
      · simp [Bmp280.reconfigure]
    · simp [Bmp280.new, Tcs3472.new, hb, ht] at h
  · simp [Bmp280.new, hb] at h

/-- C10 witness: the Normal-mode invariant on the driver the facade
constructs from a successful identity/calibration exchange. -/
theorem facade_driver_always_normal_mode_witness :
    (⟨⟨decodeCalibration (List.replicate 24 0), .Mult16X, .Mult2X, .Normal⟩⟩ :
      EnviroPHatV1).bmp.mode = Mode.Normal ∧
    ((⟨⟨decodeCalibration (List.replicate 24 0), .Mult16X, .Mult2X, .Normal⟩⟩ :
      EnviroPHatV1).bmp.queryPressAndTemp []).sleptMs = none ∧
    ((⟨⟨decodeCalibration (List.replicate 24 0), .Mult16X, .Mult2X, .Normal⟩⟩ :
      EnviroPHatV1).bmp.queryPressAndTemp []).transactions =
      [[Segment.write Bmp280.I2C_ADDR [Bmp280.DATA_REG_ADDR],
        Segment.read Bmp280.I2C_ADDR Bmp280.DATA_REG_SIZE]] ∧
    (((⟨⟨decodeCalibration (List.replicate 24 0), .Mult16X, .Mult2X, .Normal⟩⟩ :
      EnviroPHatV1).bmp.reconfigure .Time0_5ms .Off .Mult1X .Mult1X .Sleep).1).mode =
      (⟨⟨decodeCalibration (List.replicate 24 0), .Mult16X, .Mult2X, .Normal⟩⟩ :
      EnviroPHatV1).bmp.mode :=
  facade_driver_always_normal_mode 0x58 0x44 (List.replicate 24 0) []
    .Time0_5ms .Off .Mult1X .Mult1X .Sleep
    ⟨⟨decodeCalibration (List.replicate 24 0), .Mult16X, .Mult2X, .Normal⟩⟩
    (by decide)

end DripNode
